import Mathlib

/-!
Verification of the sumo-helper network-graph extraction and route-generation
engine (backend/services/sumo_export_service.py, backend/services/map_service.py,
backend/main.py) via a shallow embedding in Lean 4.

Modelling conventions:
* Python floats are modelled as exact rationals.
* The seeded global random stream consumed by random.choice is modelled by two
  explicit index streams rngE, rngX : Nat -> Nat; attempt number n draws
  entry index rngE n and exit index rngX n. random.choice over a list l is
  list indexing at the drawn index modulo the length (total for nonempty
  lists; the empty-list IndexError is modelled as GenError.emptyChoice).
* Python dicts keyed by strings are modelled as association lists with
  insertion-order upsert semantics, matching dict insertion order.
* Python exceptions are modelled with Except; an exception type that a given
  handler does not catch is propagated as an error value.
-/

deriving instance DecidableEq for Except

/-- models backend/models/schemas.py VehicleDistribution (pydantic model). -/
structure VehicleDistribution where
  vehicle_type : String
  percentage : ℚ
  color : String
  period : ℚ
  attributes : Option String
deriving DecidableEq, Repr

/-- A parsed network node as produced by map_service._parse_node_element.
The dict keys are id, x, y, type, lat, lon; type is renamed node_type because
type is reserved in Lean. -/
structure NetNode where
  id : String
  x : ℚ
  y : ℚ
  lat : Option ℚ
  lon : Option ℚ
  node_type : String
deriving DecidableEq, Repr

/-- A parsed network edge as produced by map_service._parse_edge_element.
The dict keys are id, from, to, shape, length, speed, lanes; from and to are
renamed from_node and to_node (matching the local variable names in the
source) because from is reserved in Lean. -/
structure Edge where
  id : String
  from_node : String
  to_node : String
  shape : List (ℚ × ℚ)
  length : ℚ
  speed : ℚ
  lanes : ℤ
deriving DecidableEq, Repr

/-- One element of the routes_data list built by generate_routes_with_vehicles:
a route/vehicle record with the exact dict keys used by the source. -/
structure RouteData where
  id : String
  edges : String
  vehicle_count : ℕ
  vehicle_type : String
  start_time : ℚ
  end_time : ℚ
  color : String
  attributes : String
  vehicle_id : String
deriving DecidableEq, Repr

/-- Failure modes of generate_routes_with_vehicles: the explicit raise on a
bad percentage sum, and the IndexError of random.choice on an empty list
(both surface to the caller as exceptions). -/
inductive GenError where
  | invalidDistribution (got : ℚ)
  | emptyChoice
deriving DecidableEq, Repr

/-- Mutable loop state of generate_routes_with_vehicles: the accumulated
routes_data list, vehicle_id_counter, global_depart, plus the position in
the random stream (attempt counts how many vehicles have drawn choices). -/
structure GenState where
  routes_data : List RouteData
  vehicle_id_counter : ℕ
  global_depart : ℚ
  attempt : ℕ
deriving DecidableEq, Repr

/-- The read-only context of one generation call. -/
structure GenCtx where
  edges : List Edge
  vehicle_distribution : List VehicleDistribution
  entry_points : List String
  exit_points : List String
  rngE : ℕ → ℕ
  rngX : ℕ → ℕ
  depart_step : ℚ

/-- Python abs() on a rational. -/
def pyabs (q : ℚ) : ℚ := |q|

/-- Python int() applied to a rational: truncation toward zero. -/
def pytrunc (q : ℚ) : ℤ := if 0 ≤ q then ⌊q⌋ else ⌈q⌉

/-- Insertion-ordered dict write: overwrite the value of an existing key in
place, or append a fresh key at the end (Python dict assignment). -/
def upsert {α : Type} (k : String) (v : α) : List (String × α) → List (String × α)
  | [] => [(k, v)]
  | p :: rest => if p.1 = k then (k, v) :: rest else p :: upsert k v rest

/-- vehicle_counts[first_type] += d : add d to the value stored at key k. -/
def bump (k : String) (d : ℤ) (m : List (String × ℤ)) : List (String × ℤ) :=
  m.map fun p => if p.1 = k then (p.1, p.2 + d) else p

/-- The vehicle_counts dict of generate_routes_with_vehicles: per type
int((percentage / 100.0) * total_vehicles), then if the sum falls short of
total_vehicles the shortfall is added to the first listed type.  The empty
branch is unreachable after validation (an empty distribution sums to 0 and
fails the tolerance check), where Python would raise an IndexError. -/
def vehicle_counts (vehicle_distribution : List VehicleDistribution)
    (total_vehicles : ℕ) : List (String × ℤ) :=
  let base := vehicle_distribution.foldl
    (fun m vd => upsert vd.vehicle_type
      (pytrunc ((vd.percentage / 100) * (total_vehicles : ℚ))) m) []
  let actual_total := (base.map (·.2)).sum
  if actual_total < (total_vehicles : ℤ) then
    match vehicle_distribution with
    | [] => base
    | vd0 :: _ => bump vd0.vehicle_type ((total_vehicles : ℤ) - actual_total) base
  else base

/-- The adjacency list the source builds as graph[from_node], in edge order:
graph.get(node, []) is the list of (to_node, edge_id) over edges whose from
field equals node. -/
def adj (edges : List Edge) (node : String) : List (String × String) :=
  edges.filterMap fun e =>
    if e.from_node = node then some (e.to_node, e.id) else none

/-- A heap entry (cost, node, path) as pushed by the source onto heapq. -/
abbrev Prio := ℕ × String × List String

/-- Python lexicographic comparison of two lists of strings. -/
def listStrLt : List String → List String → Bool
  | [], [] => false
  | [], _ :: _ => true
  | _ :: _, [] => false
  | a :: as, b :: bs =>
    if a < b then true else if b < a then false else listStrLt as bs

/-- Python tuple comparison on (cost, node, path), the order heapq uses. -/
def prioLt (a b : Prio) : Bool :=
  if a.1 < b.1 then true
  else if b.1 < a.1 then false
  else if a.2.1 < b.2.1 then true
  else if b.2.1 < a.2.1 then false
  else listStrLt a.2.2 b.2.2

/-- heapq.heappush modelled on a list kept sorted ascending (the head is the
minimum, as returned by heappop; entries comparing equal are identical
tuples, so the position among equals is immaterial). -/
def insertPrio (x : Prio) : List Prio → List Prio
  | [] => [x]
  | y :: ys => if prioLt x y then x :: y :: ys else y :: insertPrio x ys

/-- The while loop of the nested dijkstra function.  fuel bounds the number
of loop iterations; every pop removes one queue entry and entries are pushed
at most once per adjacency entry, so edges.length + 2 iterations always
suffice (see dijkstra below). -/
def dijkstraAux (edges : List Edge) (goal : String) :
    ℕ → List Prio → List String → Option (List String)
  | 0, _, _ => none
  | _ + 1, [], _ => none
  | fuel + 1, (cost, node, path) :: queue, visited =>
    if node = goal then some path
    else if node ∈ visited then dijkstraAux edges goal fuel queue visited
    else
      let pushes := (adj edges node).filterMap fun p =>
        if p.1 ∈ visited then none else some (cost + 1, p.1, path ++ [p.2])
      dijkstraAux edges goal fuel
        (pushes.foldl (fun q item => insertPrio item q) queue) (node :: visited)

/-- The dijkstra closure inside generate_routes_with_vehicles: minimum-hop
search returning the list of traversed edge ids, none when the queue runs
dry.  A node is pushed only while unvisited and each visit pushes one entry
per adjacency entry, so at most edges.length + 1 entries ever enter the
queue and the fuel edges.length + 2 is never exhausted with work left. -/
def dijkstra (edges : List Edge) (start goal : String) : Option (List String) :=
  dijkstraAux edges goal (edges.length + 2) [(0, start, [])] []

/-- random.choice l with drawn index n (IndexError on an empty list is the
none case). -/
def pickChoice (l : List String) (n : ℕ) : Option String :=
  l.get? (n % l.length)

/-- One iteration of the inner for-loop of generate_routes_with_vehicles:
draw an entry and an exit point, run dijkstra, and on a truthy (nonempty)
path append the route record, advance global_depart and the id counter.
Both a none result and an empty path are falsy in Python, so both skip; a
skipped vehicle changes nothing except consuming its random draws. -/
def attemptVehicle (c : GenCtx) (vd_config : VehicleDistribution)
    (vehicle_type : String) (s : GenState) : Except GenError GenState :=
  match pickChoice c.entry_points (c.rngE s.attempt),
        pickChoice c.exit_points (c.rngX s.attempt) with
  | some entry_point, some closest_exit =>
    match dijkstra c.edges entry_point closest_exit with
    | none => .ok { s with attempt := s.attempt + 1 }
    | some [] => .ok { s with attempt := s.attempt + 1 }
    | some (e0 :: es) =>
      .ok { routes_data := s.routes_data ++
              [{ id := "route_" ++ vehicle_type ++ "_" ++ toString s.vehicle_id_counter
                 edges := String.intercalate " " (e0 :: es)
                 vehicle_count := 1
                 vehicle_type := vehicle_type
                 start_time := s.global_depart
                 end_time := s.global_depart + 1
                 color := vd_config.color
                 attributes := ""
                 vehicle_id := vehicle_type ++ "_" ++ toString s.vehicle_id_counter }]
            vehicle_id_counter := s.vehicle_id_counter + 1
            global_depart := s.global_depart + c.depart_step
            attempt := s.attempt + 1 }
  | _, _ => .error .emptyChoice

/-- for i in range(count): one attempt per index, aborting on an exception. -/
def genForType (c : GenCtx) (vd_config : VehicleDistribution)
    (vehicle_type : String) : ℕ → GenState → Except GenError GenState
  | 0, s => .ok s
  | n + 1, s =>
    match attemptVehicle c vd_config vehicle_type s with
    | .error e => .error e
    | .ok s' => genForType c vd_config vehicle_type n s'

/-- The outer for-loop over vehicle_counts.items(): skip zero counts and
types without a matching distribution entry, otherwise run count attempts
(range of a negative count is empty, hence toNat). -/
def genAll (c : GenCtx) : List (String × ℤ) → GenState → Except GenError GenState
  | [], s => .ok s
  | (vehicle_type, count) :: rest, s =>
    if count = 0 then genAll c rest s
    else
      match c.vehicle_distribution.find? (fun vd => vd.vehicle_type == vehicle_type) with
      | none => genAll c rest s
      | some vd_config =>
        match genForType c vd_config vehicle_type count.toNat s with
        | .error e => .error e
        | .ok s' => genAll c rest s'

/-- generate_routes_with_vehicles: validate the percentage sum against the
0.01 tolerance, build vehicle_counts and the depart step
simulation_time / max(1, total_vehicles), then run the generation loops from
the initial state (empty routes_data, counter 0, global_depart 0). -/
def generate_routes_with_vehicles (edges : List Edge) (total_vehicles : ℕ)
    (vehicle_distribution : List VehicleDistribution)
    (entry_points exit_points : List String) (simulation_time : ℚ)
    (rngE rngX : ℕ → ℕ) : Except GenError (List RouteData) :=
  let total_percentage := (vehicle_distribution.map (·.percentage)).sum
  if pyabs (total_percentage - 100) > 1 / 100 then
    .error (.invalidDistribution total_percentage)
  else
    let counts := vehicle_counts vehicle_distribution total_vehicles
    let depart_step := simulation_time / ((max 1 total_vehicles : ℕ) : ℚ)
    match genAll ⟨edges, vehicle_distribution, entry_points, exit_points,
                  rngE, rngX, depart_step⟩ counts ⟨[], 0, 0, 0⟩ with
    | .error e => .error e
    | .ok s => .ok s.routes_data

/-- Failure surfaced by the export endpoint in main.py. -/
inductive ExportError where
  | genError (e : GenError)
  | noRoutableVehicles
deriving DecidableEq, Repr

/-- The route-generation portion of main.py export_simulation: call
generate_routes_with_vehicles and reject the request outright when no route
was produced (the HTTP 400 response No valid routes could be generated,
i.e. the NoRoutableVehiclesError of the design). -/
def export_simulation (edges : List Edge) (total_vehicles : ℕ)
    (vehicle_distribution : List VehicleDistribution)
    (entry_points exit_points : List String) (simulation_time : ℚ)
    (rngE rngX : ℕ → ℕ) : Except ExportError (List RouteData) :=
  match generate_routes_with_vehicles edges total_vehicles vehicle_distribution
      entry_points exit_points simulation_time rngE rngX with
  | .error e => .error (.genError e)
  | .ok routes_data =>
    if routes_data.isEmpty then .error .noRoutableVehicles else .ok routes_data

/-- The sort of create_route_file: sorted_routes = sorted(routes,
key start_time), modelled as a stable ascending insertion sort.  The route
and vehicle definitions of routes.rou.xml are then emitted by iterating this
list, so it is exactly the emission order of the serialized document. -/
def insertByDepart (r : RouteData) : List RouteData → List RouteData
  | [] => [r]
  | y :: ys => if y.start_time < r.start_time then y :: insertByDepart r ys
               else r :: y :: ys

/-- sorted(routes, key=lambda x: x.get(start_time, 0)) of create_route_file. -/
def sorted_routes : List RouteData → List RouteData
  | [] => []
  | r :: rs => insertByDepart r (sorted_routes rs)

/-- The network_data dict produced by map_service.get_network_data, as
consumed by the serializer (id, name, nodes, edges, bounds). -/
structure Bounds where
  xmin : ℚ
  ymin : ℚ
  xmax : ℚ
  ymax : ℚ
deriving DecidableEq, Repr

structure NetworkData where
  id : String
  name : String
  nodes : List NetNode
  edges : List Edge
  bounds : Bounds
deriving Repr

/-- The simulation_config dict passed to the serializer; the export endpoint
only fills simulation_time and name, so the other keys are read through
dict.get with defaults. -/
structure SimulationConfigDict where
  name : Option String
  simulation_time : Option ℚ
  total_vehicles : Option ℕ
  random_seed : Option ℤ
deriving Repr

/-- A node record of the simulation_metadata.json nodes array. -/
structure MetaNode where
  id : String
  x : ℚ
  y : ℚ
  lat : Option ℚ
  lon : Option ℚ
  node_type : String
  is_entry_point : Bool
  is_exit_point : Bool
deriving DecidableEq, Repr

/-- An edge record of the simulation_metadata.json edges array. -/
structure MetaEdge where
  id : String
  from_node : String
  to_node : String
  shape : List (ℚ × ℚ)
  length : ℚ
  speed : ℚ
  lanes : ℤ
deriving DecidableEq, Repr

/-- A route record of the simulation_metadata.json routes array.  The source
reads route.get(depart_time, 0): the generated route dicts carry the key
start_time and no depart_time key, so this field is always the default 0. -/
structure MetaRoute where
  id : String
  edges : String
  vehicle_type : String
  depart_time : ℚ
  color : String
deriving DecidableEq, Repr

structure SelectedPoints where
  entry_points : List String
  exit_points : List String
deriving DecidableEq, Repr

structure SimulationInfo where
  name : String
  created_at : ℚ
  version : String
  description : String
deriving DecidableEq, Repr

structure NetworkDataMeta where
  id : String
  name : String
  bounds : Bounds
  node_count : ℕ
  edge_count : ℕ
deriving DecidableEq, Repr

structure SimulationConfigMeta where
  total_vehicles : ℕ
  simulation_time : ℚ
  random_seed : Option ℤ
  vehicle_distribution : List VehicleDistribution
deriving DecidableEq, Repr

/-- The complete simulation_metadata.json document (reconstruction_info is a
constant block of instructions and file names, not modelled field by
field). -/
structure Metadata where
  simulation_info : SimulationInfo
  network_data : NetworkDataMeta
  nodes : List MetaNode
  edges : List MetaEdge
  simulation_config : SimulationConfigMeta
  selected_points : SelectedPoints
  routes : List MetaRoute
deriving Repr

/-- The top-level keys of the JSON object built by
create_simulation_metadata_json, in construction order. -/
def metadata_keys : List String :=
  ["simulation_info", "network_data", "nodes", "edges", "simulation_config",
   "selected_points", "routes", "reconstruction_info"]

/-- create_simulation_metadata_json: the structured content of the metadata
document (the JSON text layer is the identity on this structure: json.dumps
then json.loads of a dict of scalars, lists and dicts round-trips).  now is
the time.time() creation timestamp. -/
def create_simulation_metadata_json (network_data : NetworkData)
    (routes : List RouteData) (simulation_config : SimulationConfigDict)
    (selected_entry_points selected_exit_points : List String)
    (vehicle_distribution : List VehicleDistribution) (now : ℚ) : Metadata :=
  { simulation_info :=
      { name := simulation_config.name.getD "simulation"
        created_at := now
        version := "1.0"
        description := "SUMO simulation metadata for reconstruction" }
    network_data :=
      { id := network_data.id
        name := network_data.name
        bounds := network_data.bounds
        node_count := network_data.nodes.length
        edge_count := network_data.edges.length }
    nodes := network_data.nodes.map fun node =>
      { id := node.id
        x := node.x
        y := node.y
        lat := node.lat
        lon := node.lon
        node_type := node.node_type
        is_entry_point := decide (node.id ∈ selected_entry_points)
        is_exit_point := decide (node.id ∈ selected_exit_points) }
    edges := network_data.edges.map fun edge =>
      { id := edge.id
        from_node := edge.from_node
        to_node := edge.to_node
        shape := edge.shape
        length := edge.length
        speed := edge.speed
        lanes := edge.lanes }
    simulation_config :=
      { total_vehicles := simulation_config.total_vehicles.getD 100
        simulation_time := simulation_config.simulation_time.getD 3600
        random_seed := simulation_config.random_seed
        vehicle_distribution := vehicle_distribution }
    selected_points :=
      { entry_points := selected_entry_points
        exit_points := selected_exit_points }
    routes := routes.map fun route =>
      { id := route.id
        edges := route.edges
        vehicle_type := route.vehicle_type
        depart_time := 0
        color := route.color } }

/-- The scenario view a consumer reconstructs from the metadata document
alone. -/
structure ReconstructedScenario where
  nodes : List MetaNode
  edges : List MetaEdge
  selected_points : SelectedPoints
  routes : List MetaRoute
deriving Repr

/-- Loading simulation_metadata.json back: after the identity JSON text
round-trip, reconstruction reads the node list, edge list, selected points
and route list from the named top-level fields. -/
def parse_metadata (m : Metadata) : ReconstructedScenario :=
  ⟨m.nodes, m.edges, m.selected_points, m.routes⟩

/-- The parse outcome of one numeric XML attribute: absent (element.get
returned None or an empty string, both falsy), present but rejected by
float()/int() with a ValueError, or a parsed value. -/
inductive RawNum where
  | missing
  | malformed
  | val (q : ℚ)
deriving DecidableEq, Repr

/-- Same for an integer attribute parsed with int(). -/
inductive RawInt where
  | missing
  | malformed
  | val (z : ℤ)
deriving DecidableEq, Repr

/-- A node XML element as seen by map_service._parse_node_element; a string
attribute is none when absent or empty (both falsy for the all() check). -/
structure RawNode where
  id : Option String
  x : RawNum
  y : RawNum
  node_type : Option String
  lat : RawNum
  lon : RawNum
deriving DecidableEq, Repr

/-- An edge XML element as seen by map_service._parse_edge_element. -/
structure RawEdge where
  id : Option String
  from_node : Option String
  to_node : Option String
  numLanes : RawInt
  speed : RawNum
  length : RawNum
deriving DecidableEq, Repr

/-- map_service._parse_node_element: skip (warn) when id, x or y is missing
or a coordinate or the optional lat/lon fails float() (the ValueError is
caught); type defaults to priority; an absent lat or lon stays None. -/
def _parse_node_element (e : RawNode) : Option NetNode :=
  match e.id with
  | none => none
  | some node_id =>
    match e.x, e.y with
    | RawNum.val x, RawNum.val y =>
      match e.lat, e.lon with
      | RawNum.malformed, _ => none
      | _, RawNum.malformed => none
      | la, lo =>
        some { id := node_id, x := x, y := y
               lat := match la with | RawNum.val q => some q | _ => none
               lon := match lo with | RawNum.val q => some q | _ => none
               node_type := e.node_type.getD "priority" }
    | _, _ => none

/-- The node_latlon_map dict: parsed nodes whose lat and lon are both truthy
(present and nonzero; Python treats 0.0 as falsy), keyed by node id. -/
def node_latlon_map (nodes : List NetNode) : List (String × (ℚ × ℚ)) :=
  nodes.foldl (fun m n =>
    match n.lat, n.lon with
    | some la, some lo =>
      if la ≠ 0 ∧ lo ≠ 0 then upsert n.id (la, lo) m else m
    | _, _ => m) []

/-- dict.get on an insertion-ordered association list. -/
def assocGet {α : Type} (m : List (String × α)) (k : String) : Option α :=
  (m.find? (fun p => p.1 == k)).map (·.2)

/-- map_service._calculate_edge_shape: prefer the lat/lon pair of both
endpoints; otherwise fall back to planar coordinates found by
next((n.x, n.y) for n in nodes if n.id == node).  next has no default
here, so a referenced node that is absent from the parsed node list raises
StopIteration, modelled as the error case; the trailing return None of the
source is unreachable because next always yields a truthy pair. -/
def _calculate_edge_shape (from_node to_node : String)
    (latlonMap : List (String × (ℚ × ℚ))) (nodes : List NetNode) :
    Except Unit (List (ℚ × ℚ)) :=
  match assocGet latlonMap from_node, assocGet latlonMap to_node with
  | some from_coords, some to_coords => .ok [from_coords, to_coords]
  | _, _ =>
    match nodes.find? (fun n => n.id == from_node) with
    | none => .error ()
    | some fn =>
      match nodes.find? (fun n => n.id == to_node) with
      | none => .error ()
      | some tn => .ok [(fn.x, fn.y), (tn.x, tn.y)]

/-- map_service._parse_edge_element: skip (warn, .ok none) when id, from or
to is missing or a numeric property fails int()/float() (ValueError caught
by the except clause) or the shape comes back falsy; but the StopIteration
raised inside _calculate_edge_shape is not a ValueError or TypeError, so it
escapes the handler and propagates (.error). -/
def _parse_edge_element (e : RawEdge)
    (latlonMap : List (String × (ℚ × ℚ))) (nodes : List NetNode) :
    Except Unit (Option Edge) :=
  match e.id, e.from_node, e.to_node with
  | some edge_id, some from_node, some to_node =>
    match e.numLanes, e.speed, e.length with
    | RawInt.malformed, _, _ => .ok none
    | _, RawNum.malformed, _ => .ok none
    | _, _, RawNum.malformed => .ok none
    | lanesRaw, speedRaw, lengthRaw =>
      let num_lanes := match lanesRaw with | RawInt.val z => z | _ => 2
      let speed := match speedRaw with | RawNum.val q => q | _ => 13.89
      let length := match lengthRaw with | RawNum.val q => q | _ => 100
      match _calculate_edge_shape from_node to_node latlonMap nodes with
      | .error () => .error ()
      | .ok shape_coords =>
        if shape_coords.isEmpty then .ok none
        else .ok (some { id := edge_id, from_node := from_node
                         to_node := to_node, shape := shape_coords
                         length := length, speed := speed, lanes := num_lanes })
  | _, _, _ => .ok none

/-- The edge loop of _parse_network_xml, propagating an escaped exception. -/
def parseEdges (latlonMap : List (String × (ℚ × ℚ))) (nodes : List NetNode) :
    List RawEdge → Except Unit (List Edge)
  | [] => .ok []
  | e :: rest =>
    match _parse_edge_element e latlonMap nodes with
    | .error () => .error ()
    | .ok none => parseEdges latlonMap nodes rest
    | .ok (some ed) =>
      match parseEdges latlonMap nodes rest with
      | .error () => .error ()
      | .ok eds => .ok (ed :: eds)

/-- map_service._parse_network_xml on already-tokenized elements: parse all
nodes (per-node failures are skipped), build node_latlon_map, then parse the
edges; any exception that escapes _parse_edge_element is caught by the
enclosing except Exception handler and re-raised, failing the whole parse
(get_network_data then fails, so no partial graph is returned). -/
def _parse_network_xml (rawNodes : List RawNode) (rawEdges : List RawEdge) :
    Except Unit (List NetNode × List Edge) :=
  let nodes := rawNodes.filterMap _parse_node_element
  let latlonMap := node_latlon_map nodes
  match parseEdges latlonMap nodes rawEdges with
  | .error () => .error ()
  | .ok edges => .ok (nodes, edges)

/-- Python min over a nonempty list (the guard for the empty list lives in
_calculate_normalized_bounds). -/
def listMin : List ℚ → ℚ
  | [] => 0
  | a :: as => as.foldl min a

def listMax : List ℚ → ℚ
  | [] => 0
  | a :: as => as.foldl max a

/-- map_service._calculate_normalized_bounds: raw bounding box of the node
coordinates; when both extents are positive every node is rescaled by the
uniform factor min(200 / x_range, 200 / y_range) about the box midpoint and
the declared bounds become the fixed square, otherwise the nodes stay
untouched and the raw (possibly degenerate) bounds are returned.  The
in-place mutation of the node dicts is modelled by returning the updated
node list alongside the bounds. -/
def _calculate_normalized_bounds (nodes : List NetNode) :
    List NetNode × Bounds :=
  match nodes with
  | [] => ([], ⟨0, 0, 0, 0⟩)
  | n0 :: rest =>
    let x_coords := (n0 :: rest).map (·.x)
    let y_coords := (n0 :: rest).map (·.y)
    let bounds_dict : Bounds :=
      ⟨listMin x_coords, listMin y_coords, listMax x_coords, listMax y_coords⟩
    let x_range := bounds_dict.xmax - bounds_dict.xmin
    let y_range := bounds_dict.ymax - bounds_dict.ymin
    if 0 < x_range ∧ 0 < y_range then
      let scale_factor := min (200 / x_range) (200 / y_range)
      ((n0 :: rest).map fun node =>
        { node with
          x := (node.x - bounds_dict.xmin - x_range / 2) * scale_factor
          y := (node.y - bounds_dict.ymin - y_range / 2) * scale_factor },
       ⟨-100, -100, 100, 100⟩)
    else (n0 :: rest, bounds_dict)

/-- A zero random stream (always drawing index 0). -/
def zeroRng : ℕ → ℕ := fun _ => 0

/-- The distribution of the worked spec example: one car type at 100 %. -/
def car100 : VehicleDistribution :=
  { vehicle_type := "car", percentage := 100, color := "yellow"
    period := 0.45, attributes := none }

/-- Edge e1 : A -> B of the worked spec example. -/
def e1ab : Edge :=
  { id := "e1", from_node := "A", to_node := "B", shape := []
    length := 100, speed := 13.89, lanes := 2 }

/-- Edge e2 : B -> C of the worked spec example. -/
def e2bc : Edge :=
  { id := "e2", from_node := "B", to_node := "C", shape := []
    length := 100, speed := 13.89, lanes := 2 }

/-- Edge e3 : C -> D, disconnected from e1 (its tail C is only reachable
through e2, which is absent here). -/
def e3cd : Edge :=
  { id := "e3", from_node := "C", to_node := "D", shape := []
    length := 100, speed := 13.89, lanes := 2 }

/-- Claim C1: the spec asserts that for the graph A-B-C with edges e1:A to B,
e2:B to C, one car type at 100 %, total_vehicles 2, entry set [e1], exit set
[e2] and horizon 100, generation returns exactly two RouteAssignments with
edge sequence e1 e2 and departure times 0 and 50.  The code instead returns
zero assignments: the selected entry and exit identifiers are edge ids, but
dijkstra runs over an adjacency map keyed by node ids, so the search from
"e1" to "e2" finds nothing.  Running the same call from the tail node A to
the head node C produces exactly the two assignments the spec describes,
which pinpoints the slip. -/
theorem c1_spec_example_yields_no_routes :
    generate_routes_with_vehicles [e1ab, e2bc] 2 [car100] ["e1"] ["e2"] 100
      zeroRng zeroRng = .ok [] ∧
    dijkstra [e1ab, e2bc] "e1" "e2" = none ∧
    dijkstra [e1ab, e2bc] "A" "C" = some ["e1", "e2"] ∧
    generate_routes_with_vehicles [e1ab, e2bc] 2 [car100] ["A"] ["C"] 100
      zeroRng zeroRng
      = .ok [{ id := "route_car_0", edges := "e1 e2", vehicle_count := 1,
               vehicle_type := "car", start_time := 0, end_time := 1,
               color := "yellow", attributes := "", vehicle_id := "car_0" },
             { id := "route_car_1", edges := "e1 e2", vehicle_count := 1,
               vehicle_type := "car", start_time := 50, end_time := 51,
               color := "yellow", attributes := "", vehicle_id := "car_1" }] := by
  have h1 : dijkstra [e1ab, e2bc] "e1" "e2" = none := by decide
  have h2 : dijkstra [e1ab, e2bc] "A" "C" = some ["e1", "e2"] := by decide
  refine ⟨?_, h1, h2, ?_⟩ <;>
    norm_num +decide [generate_routes_with_vehicles, car100, vehicle_counts,
      upsert, pytrunc, pyabs, genAll, genForType, attemptVehicle, pickChoice,
      h1, h2, zeroRng, String.intercalate]

/-- Claim C9 counterexample: normalizing the one-node graph with the node at
(5, 7) yields the raw degenerate bounds, not the all-zero bounds the claim
asserts (the all-zero bounds only arise for an empty node list or a node at
the origin). -/
theorem c9_single_node_bounds_counterexample :
    _calculate_normalized_bounds [⟨"n1", 5, 7, none, none, "priority"⟩] =
      ([⟨"n1", 5, 7, none, none, "priority"⟩], ⟨5, 7, 5, 7⟩) ∧
    (⟨5, 7, 5, 7⟩ : Bounds) ≠ ⟨0, 0, 0, 0⟩ := by
  constructor
  · norm_num [_calculate_normalized_bounds, listMin, listMax]
  · decide

/-- Claim C9 as amended: a graph with exactly one node leaves the node
coordinates unscaled and declares the degenerate raw bounds
(xmin = xmax = x, ymin = ymax = y); both extents are zero, so no rescaling
branch is taken. -/
theorem c9_single_node_unscaled_raw_bounds (n : NetNode) :
    _calculate_normalized_bounds [n] = ([n], ⟨n.x, n.y, n.x, n.y⟩) := by
  simp [_calculate_normalized_bounds, listMin, listMax]

/-- Claim C8: the spec asserts every individually malformed node or edge —
explicitly including an edge that references a missing node — is skipped
with a warning and parsing continues to a usable partial graph.  The second
conjunct shows the true half: an edge with a missing required attribute is
skipped and the parse succeeds.  The first conjunct refutes the
missing-node half: parsing one good node A with a well-formed edge e1:A to A
followed by edge e2:A to Z, where Z does not exist, fails as a whole (the
StopIteration raised by the next() call in _calculate_edge_shape is not
caught by the except (ValueError, TypeError) handler and aborts
_parse_network_xml), returning no partial graph at all. -/
theorem c8_missing_node_reference_aborts_whole_parse :
    _parse_network_xml
      [⟨some "A", RawNum.val 0, RawNum.val 0, none, RawNum.missing, RawNum.missing⟩]
      [⟨some "e1", some "A", some "A", RawInt.val 2, RawNum.val 10, RawNum.val 100⟩,
       ⟨some "e2", some "A", some "Z", RawInt.val 2, RawNum.val 10, RawNum.val 100⟩]
      = .error () ∧
    _parse_network_xml
      [⟨some "A", RawNum.val 0, RawNum.val 0, none, RawNum.missing, RawNum.missing⟩]
      [⟨some "ebad", none, some "A", RawInt.val 2, RawNum.val 10, RawNum.val 100⟩,
       ⟨some "e1", some "A", some "A", RawInt.val 2, RawNum.val 10, RawNum.val 100⟩]
      = .ok ([⟨"A", 0, 0, none, none, "priority"⟩],
             [⟨"e1", "A", "A", [(0, 0), (0, 0)], 100, 10, 2⟩]) := by
  constructor <;> decide

/-- Claim C10: whenever the randomly drawn entry identifier equals the drawn
exit identifier for a vehicle, dijkstra immediately returns the empty path
(the start node is popped first and already equals the goal), the empty
path is falsy and treated as routing failure, and the attempt changes
nothing in the generator state except consuming its random draws — the
vehicle produces no RouteAssignment. -/
theorem c10_equal_entry_exit_is_skipped (c : GenCtx)
    (vd_config : VehicleDistribution) (vehicle_type : String) (s : GenState)
    (p : String)
    (hE : pickChoice c.entry_points (c.rngE s.attempt) = some p)
    (hX : pickChoice c.exit_points (c.rngX s.attempt) = some p) :
    dijkstra c.edges p p = some [] ∧
    attemptVehicle c vd_config vehicle_type s =
      .ok { s with attempt := s.attempt + 1 } := by
  have hd : dijkstra c.edges p p = some [] := by
    simp [dijkstra, dijkstraAux]
  exact ⟨hd, by simp [attemptVehicle, hE, hX, hd]⟩

/-- Witness for C10 at a concrete input: entry and exit both drawn as "A". -/
theorem c10_witness :
    dijkstra [e1ab] "A" "A" = some [] ∧
    attemptVehicle ⟨[e1ab], [car100], ["A"], ["A"], zeroRng, zeroRng, 50⟩
      car100 "car" ⟨[], 0, 0, 0⟩ = .ok ⟨[], 0, 0, 1⟩ :=
  c10_equal_entry_exit_is_skipped _ car100 "car" _ "A" rfl rfl



/-- Claim C6: with a single vehicle requested between a sole selected entry
identifier E and a sole selected exit identifier X that dijkstra cannot
connect, generation yields zero RouteAssignments, and the export caller
rejects the request with the no-routable-vehicles failure instead of
producing a partial scenario. -/
theorem c6_unreachable_pair_rejected (edges : List Edge) (E X : String)
    (simulation_time : ℚ) (rngE rngX : ℕ → ℕ)
    (h : dijkstra edges E X = none) :
    generate_routes_with_vehicles edges 1 [car100] [E] [X] simulation_time
      rngE rngX = .ok [] ∧
    export_simulation edges 1 [car100] [E] [X] simulation_time rngE rngX =
      .error .noRoutableVehicles := by
  have hvc : vehicle_counts [car100] 1 = [("car", 1)] := by
    norm_num +decide [vehicle_counts, upsert, pytrunc, car100]
  have hg : generate_routes_with_vehicles edges 1 [car100] [E] [X]
      simulation_time rngE rngX = .ok [] := by
    simp only [generate_routes_with_vehicles, hvc]
    norm_num [pyabs, car100]
    norm_num +decide [genAll, genForType, attemptVehicle, pickChoice,
      Nat.mod_one, h, car100, List.find?]
  refine ⟨hg, ?_⟩
  unfold export_simulation
  rw [hg]
  rfl

/-- Witness for C6: edges e1:A to B and e3:C to D are disconnected, and the
selected identifiers are the edge ids e1 and e3, which dijkstra (running
over node ids) cannot connect. -/
theorem c6_witness :
    generate_routes_with_vehicles [e1ab, e3cd] 1 [car100] ["e1"] ["e3"] 100
      zeroRng zeroRng = .ok [] ∧
    export_simulation [e1ab, e3cd] 1 [car100] ["e1"] ["e3"] 100
      zeroRng zeroRng = .error .noRoutableVehicles :=
  c6_unreachable_pair_rejected [e1ab, e3cd] "e1" "e3" 100 zeroRng zeroRng
    (by decide)

/-- A failing attempt can only raise the empty-selection IndexError; the
distribution error is raised before the loops run. -/
lemma attemptVehicle_error_eq (c : GenCtx) (vd_config : VehicleDistribution)
    (vehicle_type : String) (s : GenState) (e : GenError)
    (h : attemptVehicle c vd_config vehicle_type s = .error e) :
    e = .emptyChoice := by
  unfold attemptVehicle at h
  split at h
  · split at h <;> simp_all
  · simp only [Except.error.injEq] at h
    exact h.symm

lemma genForType_error_eq (c : GenCtx) (vd_config : VehicleDistribution)
    (vehicle_type : String) :
    ∀ (n : ℕ) (s : GenState) (e : GenError),
      genForType c vd_config vehicle_type n s = .error e → e = .emptyChoice := by
  intro n
  induction n with
  | zero => intro s e h; simp [genForType] at h
  | succ n ih =>
    intro s e h
    unfold genForType at h
    split at h
    · rename_i e' ha
      simp only [Except.error.injEq] at h
      exact h ▸ attemptVehicle_error_eq c vd_config vehicle_type s e' ha
    · exact ih _ e h

lemma genAll_error_eq (c : GenCtx) :
    ∀ (counts : List (String × ℤ)) (s : GenState) (e : GenError),
      genAll c counts s = .error e → e = .emptyChoice := by
  intro counts
  induction counts with
  | nil => intro s e h; simp [genAll] at h
  | cons p rest ih =>
    intro s e h
    rcases p with ⟨vehicle_type, count⟩
    unfold genAll at h
    split at h
    · exact ih s e h
    · split at h
      · exact ih s e h
      · rename_i vd_config hf
        split at h
        · rename_i e' hg
          simp only [Except.error.injEq] at h
          exact h ▸ genForType_error_eq c vd_config vehicle_type count.toNat s e' hg
        · exact ih _ e h

/-- Claim C3: generation fails with the distribution-validation error
exactly when the percentage sum differs from 100 by more than 0.01, and in
that case the whole request is rejected carrying the raw (unnormalized)
sum; a passing sum can never produce that error, so nothing is silently
normalized. -/
theorem c3_distribution_validation_iff (edges : List Edge)
    (total_vehicles : ℕ) (vehicle_distribution : List VehicleDistribution)
    (entry_points exit_points : List String) (simulation_time : ℚ)
    (rngE rngX : ℕ → ℕ) :
    ((∃ q, generate_routes_with_vehicles edges total_vehicles
        vehicle_distribution entry_points exit_points simulation_time rngE rngX
        = .error (.invalidDistribution q)) ↔
      |((vehicle_distribution.map (·.percentage)).sum) - 100| > 1 / 100) ∧
    (|((vehicle_distribution.map (·.percentage)).sum) - 100| > 1 / 100 →
      generate_routes_with_vehicles edges total_vehicles vehicle_distribution
        entry_points exit_points simulation_time rngE rngX
        = .error (.invalidDistribution
            ((vehicle_distribution.map (·.percentage)).sum))) := by
  by_cases hc : |((vehicle_distribution.map (·.percentage)).sum) - 100| > 1 / 100
  · have hgen : generate_routes_with_vehicles edges total_vehicles
        vehicle_distribution entry_points exit_points simulation_time rngE rngX
        = .error (.invalidDistribution
            ((vehicle_distribution.map (·.percentage)).sum)) := by
      unfold generate_routes_with_vehicles
      rw [if_pos (by simpa [pyabs] using hc)]
    exact ⟨⟨fun _ => hc, fun _ => ⟨_, hgen⟩⟩, fun _ => hgen⟩
  · have hgen : ¬ ∃ q, generate_routes_with_vehicles edges total_vehicles
        vehicle_distribution entry_points exit_points simulation_time rngE rngX
        = .error (.invalidDistribution q) := by
      rintro ⟨q, hq⟩
      simp only [generate_routes_with_vehicles] at hq
      rw [if_neg (by simpa [pyabs] using hc)] at hq
      split at hq
      · rename_i e hga
        have he := genAll_error_eq _ _ _ _ hga
        rw [he] at hq
        simp at hq
      · simp at hq
    exact ⟨⟨fun h => absurd h hgen, fun h => absurd h hc⟩,
           fun h => absurd h hc⟩

/-- Witness for C3: a 90 % distribution is rejected as a whole with the
distribution-validation error carrying the raw sum 90. -/
theorem c3_witness :
    generate_routes_with_vehicles [e1ab] 1
      [{ vehicle_type := "car", percentage := 90, color := "yellow",
         period := 0.45, attributes := none }] ["A"] ["B"] 100 zeroRng zeroRng
      = .error (.invalidDistribution 90) := by
  have h := (c3_distribution_validation_iff [e1ab] 1
      [{ vehicle_type := "car", percentage := 90, color := "yellow",
         period := 0.45, attributes := none }] ["A"] ["B"] 100
      zeroRng zeroRng).2 (by norm_num)
  simpa using h

/-- Invariant tying departure bookkeeping to the produced routes: the routes
generated so far depart at 0, step, 2 step, ... in order, and global_depart
sits one step past the last of them. -/
def DepartInv (step : ℚ) (s : GenState) : Prop :=
  s.routes_data.map (·.start_time) =
    (List.range s.routes_data.length).map (fun k : ℕ => step * (k : ℚ)) ∧
  s.global_depart = step * s.routes_data.length

lemma attemptVehicle_departInv (c : GenCtx) (vd_config : VehicleDistribution)
    (vehicle_type : String) (s s' : GenState)
    (h : attemptVehicle c vd_config vehicle_type s = .ok s')
    (hi : DepartInv c.depart_step s) : DepartInv c.depart_step s' := by
  unfold attemptVehicle at h
  split at h
  · split at h
    · simp only [Except.ok.injEq] at h
      exact h ▸ hi
    · simp only [Except.ok.injEq] at h
      exact h ▸ hi
    · simp only [Except.ok.injEq] at h
      subst h
      obtain ⟨hi1, hi2⟩ := hi
      constructor
      · simp only [List.map_append, List.length_append, List.map_cons,
          List.map_nil, List.length_cons, List.length_nil]
        rw [hi1, hi2]
        simp [List.range_succ]
      · simp only [List.length_append, List.length_cons, List.length_nil]
        rw [hi2]
        push_cast
        ring
  · simp at h

lemma genForType_departInv (c : GenCtx) (vd_config : VehicleDistribution)
    (vehicle_type : String) :
    ∀ (n : ℕ) (s s' : GenState),
      genForType c vd_config vehicle_type n s = .ok s' →
      DepartInv c.depart_step s → DepartInv c.depart_step s' := by
  intro n
  induction n with
  | zero =>
    intro s s' h hi
    simp only [genForType, Except.ok.injEq] at h
    exact h ▸ hi
  | succ n ih =>
    intro s s' h hi
    unfold genForType at h
    split at h
    · simp at h
    · rename_i s1 ha
      exact ih s1 s' h (attemptVehicle_departInv c vd_config vehicle_type s s1 ha hi)

lemma genAll_departInv (c : GenCtx) :
    ∀ (counts : List (String × ℤ)) (s s' : GenState),
      genAll c counts s = .ok s' →
      DepartInv c.depart_step s → DepartInv c.depart_step s' := by
  intro counts
  induction counts with
  | nil =>
    intro s s' h hi
    simp only [genAll, Except.ok.injEq] at h
    exact h ▸ hi
  | cons p rest ih =>
    intro s s' h hi
    rcases p with ⟨vehicle_type, count⟩
    unfold genAll at h
    split at h
    · exact ih s s' h hi
    · split at h
      · exact ih s s' h hi
      · rename_i vd_config hf
        split at h
        · simp at h
        · rename_i s1 hg
          exact ih s1 s' h
            (genForType_departInv c vd_config vehicle_type count.toNat s s1 hg hi)

/-- The generated routes depart at exactly 0, step, 2 step, ... in
generation order, with step = simulation_time / max(1, total_vehicles):
global_depart and the output list advance together, only on successfully
routed vehicles. -/
lemma generate_departs_schedule (edges : List Edge) (total_vehicles : ℕ)
    (vehicle_distribution : List VehicleDistribution)
    (entry_points exit_points : List String) (simulation_time : ℚ)
    (rngE rngX : ℕ → ℕ) (routes : List RouteData)
    (h : generate_routes_with_vehicles edges total_vehicles
      vehicle_distribution entry_points exit_points simulation_time rngE rngX
      = .ok routes) :
    routes.map (·.start_time) =
      (List.range routes.length).map
        (fun k : ℕ =>
          (simulation_time / ((max 1 total_vehicles : ℕ) : ℚ)) * (k : ℚ)) := by
  simp only [generate_routes_with_vehicles] at h
  split at h
  · simp at h
  · split at h
    · simp at h
    · rename_i s hga
      simp only [Except.ok.injEq] at h
      subst h
      exact (genAll_departInv _ _ _ _ hga (by simp [DepartInv])).1

/-- Claim C4 counterexample: entry draws ["Z", "A"] in order against exit
"B" on the single edge e1:A to B.  The first attempted vehicle draws entry
"Z", is unroutable and is skipped; the second draws "A" and succeeds.  Under
the claim (the depart counter advances once per attempted vehicle), the
surviving vehicle would depart at step * 1 = 50; the code leaves the counter
untouched on failures, so it departs at 0. -/
theorem c4_failed_attempt_depart_counterexample :
    dijkstra [e1ab] "Z" "B" = none ∧
    generate_routes_with_vehicles [e1ab] 2 [car100] ["Z", "A"] ["B"] 100
      (fun n => n) zeroRng
      = .ok [{ id := "route_car_0", edges := "e1", vehicle_count := 1,
               vehicle_type := "car", start_time := 0, end_time := 1,
               color := "yellow", attributes := "", vehicle_id := "car_0" }] ∧
    ((100 : ℚ) / ((max 1 2 : ℕ) : ℚ)) * 1 = 50 ∧ (0 : ℚ) ≠ 50 := by
  have h1 : dijkstra [e1ab] "Z" "B" = none := by decide
  have h2 : dijkstra [e1ab] "A" "B" = some ["e1"] := by decide
  refine ⟨h1, ?_, by norm_num, by norm_num⟩
  norm_num +decide [generate_routes_with_vehicles, car100, vehicle_counts,
    upsert, pytrunc, pyabs, genAll, genForType, attemptVehicle, pickChoice,
    h1, h2, zeroRng, String.intercalate]

/-- Claim C4 as amended: the very first successfully routed vehicle departs
at time 0 and the depart-time counter advances by the fixed step
horizon / max(1, total_vehicles) once per successfully routed vehicle, in
type-then-index iteration order; failed attempts advance nothing, and a
departure time is attached only to vehicles whose routing succeeded, so the
k-th successful vehicle departs at k * step. -/
theorem c4_depart_schedule_per_success (edges : List Edge)
    (total_vehicles : ℕ) (vehicle_distribution : List VehicleDistribution)
    (entry_points exit_points : List String) (simulation_time : ℚ)
    (rngE rngX : ℕ → ℕ) (routes : List RouteData)
    (h : generate_routes_with_vehicles edges total_vehicles
      vehicle_distribution entry_points exit_points simulation_time rngE rngX
      = .ok routes) :
    routes.map (·.start_time) =
      (List.range routes.length).map
        (fun k : ℕ =>
          (simulation_time / ((max 1 total_vehicles : ℕ) : ℚ)) * (k : ℚ)) :=
  generate_departs_schedule edges total_vehicles vehicle_distribution
    entry_points exit_points simulation_time rngE rngX routes h

/-- Witness for the amended C4 at a concrete input: two vehicles routed from
A to C over e1, e2 depart at 0 * 50 and 1 * 50. -/
theorem c4_witness :
    ([{ id := "route_car_0", edges := "e1 e2", vehicle_count := 1,
        vehicle_type := "car", start_time := 0, end_time := 1,
        color := "yellow", attributes := "", vehicle_id := "car_0" },
      { id := "route_car_1", edges := "e1 e2", vehicle_count := 1,
        vehicle_type := "car", start_time := 50, end_time := 51,
        color := "yellow", attributes := "", vehicle_id := "car_1" }]
      : List RouteData).map (·.start_time) =
      (List.range 2).map
        (fun k : ℕ => ((100 : ℚ) / ((max 1 2 : ℕ) : ℚ)) * (k : ℚ)) :=
  c4_depart_schedule_per_success [e1ab, e2bc] 2 [car100] ["A"] ["C"] 100
    zeroRng zeroRng _ (by
      have h2 : dijkstra [e1ab, e2bc] "A" "C" = some ["e1", "e2"] := by decide
      norm_num +decide [generate_routes_with_vehicles, car100, vehicle_counts,
        upsert, pytrunc, pyabs, genAll, genForType, attemptVehicle, pickChoice,
        h2, zeroRng, String.intercalate])

lemma mem_insertByDepart {z x : RouteData} :
    ∀ {l : List RouteData}, z ∈ insertByDepart x l → z = x ∨ z ∈ l := by
  intro l
  induction l with
  | nil =>
    intro h
    simp [insertByDepart] at h
    exact Or.inl h
  | cons y ys ih =>
    intro h
    rw [insertByDepart] at h
    split at h
    · rcases List.mem_cons.mp h with rfl | h2
      · exact Or.inr (List.mem_cons_self _ _)
      · rcases ih h2 with rfl | h3
        · exact Or.inl rfl
        · exact Or.inr (List.mem_cons_of_mem _ h3)
    · rcases List.mem_cons.mp h with rfl | h2
      · exact Or.inl rfl
      · exact Or.inr h2

lemma pairwise_insertByDepart {x : RouteData} :
    ∀ {l : List RouteData},
      l.Pairwise (fun a b => a.start_time ≤ b.start_time) →
      (insertByDepart x l).Pairwise (fun a b => a.start_time ≤ b.start_time) := by
  intro l
  induction l with
  | nil =>
    intro _
    simp [insertByDepart]
  | cons y ys ih =>
    intro h
    rw [List.pairwise_cons] at h
    obtain ⟨hy, hys⟩ := h
    rw [insertByDepart]
    by_cases hlt : y.start_time < x.start_time
    · rw [if_pos hlt, List.pairwise_cons]
      refine ⟨?_, ih hys⟩
      intro z hz
      rcases mem_insertByDepart hz with rfl | hz2
      · exact le_of_lt hlt
      · exact hy z hz2
    · rw [if_neg hlt, List.pairwise_cons]
      have hxy : x.start_time ≤ y.start_time := not_lt.mp hlt
      refine ⟨?_, List.pairwise_cons.mpr ⟨hy, hys⟩⟩
      intro z hz
      rcases List.mem_cons.mp hz with rfl | hz2
      · exact hxy
      · exact le_trans hxy (hy z hz2)

lemma insertByDepart_perm (x : RouteData) :
    ∀ (l : List RouteData), List.Perm (insertByDepart x l) (x :: l) := by
  intro l
  induction l with
  | nil => simp [insertByDepart]
  | cons y ys ih =>
    rw [insertByDepart]
    split
    · exact (ih.cons y).trans (List.Perm.swap x y ys)
    · exact List.Perm.refl _

lemma sorted_routes_perm :
    ∀ (l : List RouteData), List.Perm (sorted_routes l) l := by
  intro l
  induction l with
  | nil => simp [sorted_routes]
  | cons r rs ih =>
    rw [sorted_routes]
    exact (insertByDepart_perm r _).trans (ih.cons r)

lemma sorted_routes_pairwise : ∀ (l : List RouteData),
    (sorted_routes l).Pairwise (fun a b => a.start_time ≤ b.start_time) := by
  intro l
  induction l with
  | nil => simp [sorted_routes]
  | cons r rs ih =>
    rw [sorted_routes]
    exact pairwise_insertByDepart ih

lemma insertByDepart_of_le (x : RouteData) (l : List RouteData)
    (h : ∀ y ∈ l, x.start_time ≤ y.start_time) :
    insertByDepart x l = x :: l := by
  cases l with
  | nil => rfl
  | cons y ys =>
    rw [insertByDepart, if_neg (not_lt.mpr (h y (List.mem_cons_self y ys)))]

lemma sorted_routes_eq_of_pairwise : ∀ (l : List RouteData),
    l.Pairwise (fun a b => a.start_time ≤ b.start_time) →
    sorted_routes l = l := by
  intro l
  induction l with
  | nil => intro _; rfl
  | cons r rs ih =>
    intro h
    rw [List.pairwise_cons] at h
    rw [sorted_routes, ih h.2, insertByDepart_of_le r rs h.1]

/-- Claim C5: create_route_file emits one route and one vehicle definition
per assignment in the order of sorted_routes, which is a permutation of the
input sorted ascending by departure time; and for every successfully
generated route list (any positive horizon), the departure times are
strictly increasing in that post-sort order. -/
theorem c5_route_file_sorted_emission :
    (∀ routes : List RouteData,
      List.Perm (sorted_routes routes) routes ∧
      (sorted_routes routes).Pairwise
        (fun a b => a.start_time ≤ b.start_time)) ∧
    (∀ (edges : List Edge) (total_vehicles : ℕ)
       (vehicle_distribution : List VehicleDistribution)
       (entry_points exit_points : List String) (simulation_time : ℚ)
       (rngE rngX : ℕ → ℕ) (routes : List RouteData),
      0 < simulation_time →
      generate_routes_with_vehicles edges total_vehicles vehicle_distribution
        entry_points exit_points simulation_time rngE rngX = .ok routes →
      (sorted_routes routes).Pairwise
        (fun a b => a.start_time < b.start_time)) := by
  constructor
  · exact fun routes =>
      ⟨sorted_routes_perm routes, sorted_routes_pairwise routes⟩
  · intro edges total_vehicles vehicle_distribution entry_points exit_points
      simulation_time rngE rngX routes hpos h
    have hd := generate_departs_schedule edges total_vehicles
      vehicle_distribution entry_points exit_points simulation_time
      rngE rngX routes h
    have hstep : 0 < simulation_time / ((max 1 total_vehicles : ℕ) : ℚ) := by
      apply div_pos hpos
      have h1 : (0 : ℕ) < max 1 total_vehicles :=
        lt_of_lt_of_le Nat.zero_lt_one (le_max_left _ _)
      exact_mod_cast h1
    have hlt : routes.Pairwise (fun a b => a.start_time < b.start_time) := by
      have hmap : (routes.map (·.start_time)).Pairwise (· < ·) := by
        rw [hd]
        refine List.pairwise_map.mpr ?_
        refine (List.pairwise_lt_range routes.length).imp ?_
        intro i j hij
        exact mul_lt_mul_of_pos_left (by exact_mod_cast hij) hstep
      exact List.pairwise_map.mp hmap
    have hle : routes.Pairwise (fun a b => a.start_time ≤ b.start_time) :=
      hlt.imp le_of_lt
    rw [sorted_routes_eq_of_pairwise routes hle]
    exact hlt

/-- Witness for C5 at a concrete input: the two generated routes depart at 0
and 50, and remain strictly increasing after the sort. -/
theorem c5_witness :
    (sorted_routes
      [{ id := "route_car_0", edges := "e1 e2", vehicle_count := 1,
         vehicle_type := "car", start_time := 0, end_time := 1,
         color := "yellow", attributes := "", vehicle_id := "car_0" },
       { id := "route_car_1", edges := "e1 e2", vehicle_count := 1,
         vehicle_type := "car", start_time := 50, end_time := 51,
         color := "yellow", attributes := "", vehicle_id := "car_1" }]).Pairwise
      (fun a b => a.start_time < b.start_time) :=
  c5_route_file_sorted_emission.2 [e1ab, e2bc] 2 [car100] ["A"] ["C"] 100
    zeroRng zeroRng _ (by norm_num) (by
      have h2 : dijkstra [e1ab, e2bc] "A" "C" = some ["e1", "e2"] := by decide
      norm_num +decide [generate_routes_with_vehicles, car100, vehicle_counts,
        upsert, pytrunc, pyabs, genAll, genForType, attemptVehicle, pickChoice,
        h2, zeroRng, String.intercalate])

/-- The floor count of the design: floor(percentage / 100 * total_vehicles). -/
def floor_count (total_vehicles : ℕ) (vd : VehicleDistribution) : ℤ :=
  ⌊(vd.percentage / 100) * (total_vehicles : ℚ)⌋

lemma pytrunc_eq_floor (q : ℚ) (h : 0 ≤ q) : pytrunc q = ⌊q⌋ := by
  unfold pytrunc
  rw [if_pos h]

lemma upsert_fresh {α : Type} (k : String) (v : α) :
    ∀ (m : List (String × α)), (∀ p ∈ m, p.1 ≠ k) →
      upsert k v m = m ++ [(k, v)] := by
  intro m
  induction m with
  | nil => intro _; rfl
  | cons p rest ih =>
    intro h
    rw [upsert, if_neg (h p (List.mem_cons_self p rest))]
    rw [ih fun p hp => h p (List.mem_cons_of_mem _ hp)]
    rfl

lemma foldl_upsert_append (f : VehicleDistribution → ℤ) :
    ∀ (dist : List VehicleDistribution) (m : List (String × ℤ)),
      (∀ vd ∈ dist, ∀ p ∈ m, p.1 ≠ vd.vehicle_type) →
      (dist.map (·.vehicle_type)).Nodup →
      dist.foldl (fun m vd => upsert vd.vehicle_type (f vd) m) m
        = m ++ dist.map (fun vd => (vd.vehicle_type, f vd)) := by
  intro dist
  induction dist with
  | nil => intro m _ _; simp
  | cons vd rest ih =>
    intro m hm hnd
    rw [List.map_cons, List.nodup_cons] at hnd
    rw [List.foldl_cons,
      upsert_fresh vd.vehicle_type (f vd) m
        (fun p hp => hm vd (List.mem_cons_self _ _) p hp),
      ih (m ++ [(vd.vehicle_type, f vd)]) ?_ hnd.2]
    · simp
    · intro vd' hvd' p hp
      rcases List.mem_append.mp hp with hp1 | hp2
      · exact hm vd' (List.mem_cons_of_mem _ hvd') p hp1
      · rcases List.mem_singleton.mp hp2 with rfl
        intro hcontra
        exact hnd.1 (by
          rw [show vd.vehicle_type = vd'.vehicle_type from hcontra]
          exact List.mem_map_of_mem (·.vehicle_type) hvd')

lemma bump_cons_fresh (k : String) (d v : ℤ)
    (rest : List (String × ℤ)) (h : ∀ p ∈ rest, p.1 ≠ k) :
    bump k d ((k, v) :: rest) = (k, v + d) :: rest := by
  rw [bump, List.map_cons, if_pos rfl]
  congr 1
  calc rest.map (fun p => if p.1 = k then (p.1, p.2 + d) else p)
      = rest.map id := List.map_congr_left (fun p hp => by simp [h p hp])
    _ = rest := List.map_id rest

lemma map_snd_pairs (g : VehicleDistribution → ℤ)
    (l : List VehicleDistribution) :
    ((l.map fun vd => (vd.vehicle_type, g vd)).map (·.2)) = l.map g := by
  rw [List.map_map]
  rfl

/-- Claim C2 as amended: with distinct nonnegative vehicle types, every
non-first type receives exactly floor(percentage / 100 * total_vehicles)
vehicles, the first listed entry additionally receives the whole rounding
remainder max(0, total_vehicles - sum of floors), and the per-type counts
sum to max(total_vehicles, sum of floors).  That sum equals total_vehicles
whenever the floor counts do not overshoot (always the case when the
percentages sum to at most 100), but a percentage sum slightly above 100
still inside the 0.01 tolerance can make it exceed total_vehicles, because
the code only tops the first type up and never trims. -/
theorem c2_counts_floor_remainder_max (vd0 : VehicleDistribution)
    (rest : List VehicleDistribution) (total_vehicles : ℕ)
    (hnd : (((vd0 :: rest)).map (·.vehicle_type)).Nodup)
    (hpos : ∀ vd ∈ vd0 :: rest, 0 ≤ vd.percentage) :
    vehicle_counts (vd0 :: rest) total_vehicles =
      (vd0.vehicle_type,
        floor_count total_vehicles vd0 +
          max 0 ((total_vehicles : ℤ) -
            (((vd0 :: rest)).map (floor_count total_vehicles)).sum)) ::
        rest.map (fun vd => (vd.vehicle_type, floor_count total_vehicles vd)) ∧
    ((vehicle_counts (vd0 :: rest) total_vehicles).map (·.2)).sum =
      max (total_vehicles : ℤ)
        ((((vd0 :: rest)).map (floor_count total_vehicles)).sum) := by
  have hT : (0 : ℚ) ≤ (total_vehicles : ℚ) := Nat.cast_nonneg _
  have hf : ∀ vd ∈ vd0 :: rest,
      pytrunc ((vd.percentage / 100) * (total_vehicles : ℚ))
        = floor_count total_vehicles vd := by
    intro vd hv
    exact pytrunc_eq_floor _
      (mul_nonneg (div_nonneg (hpos vd hv) (by norm_num)) hT)
  have hbase : (vd0 :: rest).foldl
      (fun m vd => upsert vd.vehicle_type
        (pytrunc ((vd.percentage / 100) * (total_vehicles : ℚ))) m) []
      = (vd0 :: rest).map
          (fun vd => (vd.vehicle_type, floor_count total_vehicles vd)) := by
    rw [foldl_upsert_append
      (fun vd => pytrunc ((vd.percentage / 100) * (total_vehicles : ℚ)))
      (vd0 :: rest) [] (by simp) hnd]
    simp only [List.nil_append]
    exact List.map_congr_left (fun vd hv => by rw [hf vd hv])
  have hfresh : ∀ p ∈ rest.map
      (fun vd => (vd.vehicle_type, floor_count total_vehicles vd)),
      p.1 ≠ vd0.vehicle_type := by
    intro p hp
    obtain ⟨vd', hvd', rfl⟩ := List.mem_map.mp hp
    intro hc
    rw [List.map_cons, List.nodup_cons] at hnd
    exact hnd.1 (by
      rw [show vd0.vehicle_type = vd'.vehicle_type from hc.symm]
      exact List.mem_map_of_mem (·.vehicle_type) hvd')
  unfold vehicle_counts
  simp only [hbase, map_snd_pairs]
  by_cases hlt : ((vd0 :: rest).map (floor_count total_vehicles)).sum
      < (total_vehicles : ℤ)
  · rw [if_pos hlt]
    rw [show (vd0 :: rest).map
        (fun vd => (vd.vehicle_type, floor_count total_vehicles vd))
        = (vd0.vehicle_type, floor_count total_vehicles vd0)
            :: rest.map (fun vd => (vd.vehicle_type, floor_count total_vehicles vd))
      from List.map_cons _ _ _]
    rw [bump_cons_fresh _ _ _ _ hfresh]
    refine ⟨?_, ?_⟩
    · rw [max_eq_right (sub_nonneg.mpr (le_of_lt hlt))]
    · rw [max_eq_left (le_of_lt hlt)]
      simp only [List.map_cons, List.sum_cons, map_snd_pairs] at hlt ⊢
      omega
  · rw [if_neg hlt]
    refine ⟨?_, ?_⟩
    · rw [max_eq_left (sub_nonpos.mpr (not_lt.mp hlt)), add_zero]
      exact List.map_cons _ _ _
    · rw [map_snd_pairs, max_eq_right (not_lt.mp hlt)]

/-- Claim C2 counterexample: the distribution car 50.004 %, bus 50.004 %
sums to 100.008, strictly inside the 0.01 tolerance — far enough from the
boundary that the double-precision source accepts it just like this exact
model (50.004 + 50.004 is 100.00799999999999556 as doubles, within
tolerance) — yet at total_vehicles = 100000 the truncated counts overshoot
(50004 + 50004 = 100008 in exact arithmetic; the doubles truncate to
50003 + 50003 = 100006), the shortfall branch does not fire, and either way
the generated total is not 100000. -/
theorem c2_sum_counterexample :
    |(([⟨"car", 50.004, "yellow", 0.45, none⟩,
        ⟨"bus", 50.004, "blue", 0.45, none⟩] : List VehicleDistribution).map
        (·.percentage)).sum - 100| ≤ 1 / 100 ∧
    ((vehicle_counts [⟨"car", 50.004, "yellow", 0.45, none⟩,
        ⟨"bus", 50.004, "blue", 0.45, none⟩] 100000).map (·.2)).sum
      ≠ 100000 := by
  refine ⟨by norm_num [abs_le], ?_⟩
  norm_num +decide [vehicle_counts, upsert, pytrunc]

/-- Witness for the amended C2: car 60 %, bus 40 % at 5 total vehicles gives
counts 3 and 2, which sum to exactly 5. -/
theorem c2_witness :
    vehicle_counts [⟨"car", 60, "yellow", 0.45, none⟩,
        ⟨"bus", 40, "blue", 0.45, none⟩] 5 =
      ("car", ⌊((60 : ℚ) / 100) * (5 : ℚ)⌋ +
        max 0 ((5 : ℤ) -
          (([⟨"car", 60, "yellow", 0.45, none⟩,
             ⟨"bus", 40, "blue", 0.45, none⟩] : List VehicleDistribution).map
            (floor_count 5)).sum)) ::
        [(⟨"bus", 40, "blue", 0.45, none⟩ : VehicleDistribution)].map
          (fun vd => (vd.vehicle_type, floor_count 5 vd)) ∧
    ((vehicle_counts [⟨"car", 60, "yellow", 0.45, none⟩,
        ⟨"bus", 40, "blue", 0.45, none⟩] 5).map (·.2)).sum =
      max (5 : ℤ)
        ((([⟨"car", 60, "yellow", 0.45, none⟩,
            ⟨"bus", 40, "blue", 0.45, none⟩] : List VehicleDistribution).map
          (floor_count 5)).sum) :=
  c2_counts_floor_remainder_max ⟨"car", 60, "yellow", 0.45, none⟩
    [⟨"bus", 40, "blue", 0.45, none⟩] 5 (by decide)
    (by intro vd hvd; fin_cases hvd <;> norm_num)

/-- Claim C7: the metadata document exposes simulation_info, network_data,
nodes, edges, simulation_config, selected_points and routes as top-level
fields, and parsing it back recovers the node set (all fields), the edge
set (all fields), the entry/exit flags as membership of the node id in the
caller-selected sets, the selected sets themselves, and the edge sequence
of every route, exactly as passed to serialization. -/
theorem c7_metadata_roundtrip (network_data : NetworkData)
    (routes : List RouteData) (simulation_config : SimulationConfigDict)
    (selected_entry_points selected_exit_points : List String)
    (vehicle_distribution : List VehicleDistribution) (now : ℚ) :
    ("simulation_info" ∈ metadata_keys ∧ "network_data" ∈ metadata_keys ∧
     "nodes" ∈ metadata_keys ∧ "edges" ∈ metadata_keys ∧
     "simulation_config" ∈ metadata_keys ∧
     "selected_points" ∈ metadata_keys ∧ "routes" ∈ metadata_keys) ∧
    (parse_metadata (create_simulation_metadata_json network_data routes
        simulation_config selected_entry_points selected_exit_points
        vehicle_distribution now)).nodes.map
          (fun n => (n.id, n.x, n.y, n.lat, n.lon, n.node_type))
      = network_data.nodes.map
          (fun n => (n.id, n.x, n.y, n.lat, n.lon, n.node_type)) ∧
    (parse_metadata (create_simulation_metadata_json network_data routes
        simulation_config selected_entry_points selected_exit_points
        vehicle_distribution now)).edges.map
          (fun e => (e.id, e.from_node, e.to_node, e.shape, e.length,
                     e.speed, e.lanes))
      = network_data.edges.map
          (fun e => (e.id, e.from_node, e.to_node, e.shape, e.length,
                     e.speed, e.lanes)) ∧
    (∀ n ∈ (parse_metadata (create_simulation_metadata_json network_data
        routes simulation_config selected_entry_points selected_exit_points
        vehicle_distribution now)).nodes,
      (n.is_entry_point = true ↔ n.id ∈ selected_entry_points) ∧
      (n.is_exit_point = true ↔ n.id ∈ selected_exit_points)) ∧
    (parse_metadata (create_simulation_metadata_json network_data routes
        simulation_config selected_entry_points selected_exit_points
        vehicle_distribution now)).selected_points
      = ⟨selected_entry_points, selected_exit_points⟩ ∧
    (parse_metadata (create_simulation_metadata_json network_data routes
        simulation_config selected_entry_points selected_exit_points
        vehicle_distribution now)).routes.map (·.edges)
      = routes.map (·.edges) := by
  refine ⟨by decide, ?_, ?_, ?_, rfl, ?_⟩
  · simp [parse_metadata, create_simulation_metadata_json, List.map_map]
  · simp [parse_metadata, create_simulation_metadata_json, List.map_map]
  · intro n hn
    simp only [parse_metadata, create_simulation_metadata_json,
      List.mem_map] at hn
    obtain ⟨n0, _, rfl⟩ := hn
    constructor <;> simp [decide_eq_true_iff]
  · simp [parse_metadata, create_simulation_metadata_json, List.map_map]

/-- A one-node network for the C7 witness. -/
def nd0 : NetworkData :=
  { id := "net", name := "net",
    nodes := [⟨"n1", 1, 2, none, none, "priority"⟩], edges := [],
    bounds := ⟨0, 0, 0, 0⟩ }

/-- An empty simulation-config dict for the C7 witness. -/
def cfg0 : SimulationConfigDict := ⟨none, none, none, none⟩

/-- Witness for C7: in the serialized metadata of nd0 with entry set [n1]
and empty exit set, the node n1 carries is_entry_point true and
is_exit_point false, matching membership in the selected sets. -/
theorem c7_witness :
    ((⟨"n1", 1, 2, none, none, "priority", true, false⟩
        : MetaNode).is_entry_point = true ↔ "n1" ∈ ["n1"]) ∧
    ((⟨"n1", 1, 2, none, none, "priority", true, false⟩
        : MetaNode).is_exit_point = true ↔ "n1" ∈ ([] : List String)) :=
  (c7_metadata_roundtrip nd0 [] cfg0 ["n1"] [] [] 5).2.2.2.1
    ⟨"n1", 1, 2, none, none, "priority", true, false⟩ (by decide)

/-- Witness for the amended C9 at a concrete node (3, 4). -/
theorem c9_witness :
    _calculate_normalized_bounds [⟨"q1", 3, 4, none, none, "priority"⟩] =
      ([⟨"q1", 3, 4, none, none, "priority"⟩], ⟨3, 4, 3, 4⟩) :=
  c9_single_node_unscaled_raw_bounds ⟨"q1", 3, 4, none, none, "priority"⟩
